import Mathlib

/-!
Verification of the chatbot API against its design specification.

The definitions below are a shallow embedding of the TypeScript source of
the repository (Hono route handlers, Mastra tool adapters). JavaScript
`undefined`/absent values are modelled as `Option`, JS truthiness tests on
strings (`!x`, `x || d`) are modelled explicitly (absent and empty string
are falsy), and external collaborators (the model stream, the HTTP fetch
responses, the span table) are passed in as explicit parameters so that
theorems can quantify over them.
-/

namespace Chatbot

/-- Model of a JSON value appearing in a request body (numbers restricted
to integers; enough to express the validation performed by the routes). -/
inductive JValue where
  | jnull : JValue
  | jbool : Bool → JValue
  | jnum : Int → JValue
  | jstr : String → JValue
deriving DecidableEq, Repr

/-- JavaScript truthiness test `!v` on a JSON value: `null`, `false`, `0`
and the empty string are falsy. -/
def JValue.falsy : JValue → Bool
  | .jnull => true
  | .jbool b => !b
  | .jnum n => n == 0
  | .jstr s => s == ""

/-- Whether `typeof v === "string"` holds. -/
def JValue.isStr : JValue → Bool
  | .jstr _ => true
  | _ => false

/-- JavaScript `x || d` for an optional string `x`: absent and empty string
fall back to the default `d`. -/
def jsOrStr (x : Option String) (d : String) : String :=
  match x with
  | some s => if s = "" then d else s
  | none => d

/-- JavaScript falsiness `!x` of an optional string: true for absent and
for the empty string. -/
def jsFalsyStr (x : Option String) : Bool :=
  match x with
  | some s => s == ""
  | none => true

/-- Lower-case hexadecimal digit. -/
def hexDigit (n : Nat) : Char :=
  if n < 10 then Char.ofNat (48 + n) else Char.ofNat (87 + n)

/-- Four-digit lower-case hexadecimal rendering used by `JSON.stringify`
for control characters (`\u00XX`). -/
def hex4 (n : Nat) : String :=
  String.mk [hexDigit (n / 4096 % 16), hexDigit (n / 256 % 16),
             hexDigit (n / 16 % 16), hexDigit (n % 16)]

/-- Escaping of one character as performed by `JSON.stringify` on strings. -/
def jsonEscapeChar (c : Char) : String :=
  if c = '"' then "\\\""
  else if c = '\\' then "\\\\"
  else if c.toNat = 8 then "\\b"
  else if c.toNat = 12 then "\\f"
  else if c = '\n' then "\\n"
  else if c = '\r' then "\\r"
  else if c = '\t' then "\\t"
  else if c.toNat < 32 then "\\u" ++ hex4 c.toNat
  else String.singleton c

/-- `JSON.stringify` applied to a string value. -/
def jsonEncodeString (s : String) : String :=
  "\"" ++ String.join (s.toList.map jsonEscapeChar) ++ "\""

/-! Stream framer of `POST /chat/stream` (SSE variant): the handler
enqueues one string per frame: an optional `event: traceId` frame, one
`data:` frame per text chunk of the model stream, and a terminal
`data: [DONE]` frame. -/

/-- The `event: traceId` frame enqueued before any text frame. -/
def traceIdFrame (t : String) : String :=
  "event: traceId\ndata: " ++ jsonEncodeString t ++ "\n\n"

/-- One `data:` frame carrying a single JSON-encoded text chunk. -/
def dataFrame (chunk : String) : String :=
  "data: " ++ jsonEncodeString chunk ++ "\n\n"

/-- The terminal frame. -/
def doneFrame : String := "data: [DONE]\n\n"

/-- Frame sequence produced by the stream handler, from the stream's trace
id (emitted only when truthy, mirroring `if (traceId)`) and the model's
text chunks in order. -/
def sseFrames (traceId : Option String) (chunks : List String) : List String :=
  (if jsFalsyStr traceId then [] else [traceIdFrame (traceId.getD "")])
    ++ chunks.map dataFrame ++ [doneFrame]

/-- Body of a `POST /chat/stream` request: `{ message, threadId? }`, each
field possibly absent. -/
structure ChatStreamRequest where
  message : Option JValue
  threadId : Option String
deriving DecidableEq, Repr

/-- Validation check of the stream route:
`!message || typeof message !== "string"`. -/
def messageInvalid (message : Option JValue) : Bool :=
  match message with
  | none => true
  | some v => v.falsy || !v.isStr

/-- Thread resolution of the stream route:
`threadId || "thread-" + session.user.id`. -/
def resolvedThreadId (threadId : Option String) (userId : String) : String :=
  jsOrStr threadId ("thread-" ++ userId)

/-- Result returned by `agent.stream`: the trace id exposed on the stream
response and the ordered text chunks of `stream.textStream`. -/
structure ModelStream where
  traceId : Option String
  chunks : List String

/-- Outcome of the stream route: a JSON error response, or a streaming
response with a status, a `Content-Type` header and the enqueued frames. -/
inductive StreamOutcome where
  | jsonError : Nat → String → StreamOutcome
  | streamOk : Nat → String → List String → StreamOutcome
deriving DecidableEq, Repr

/-- Handler of `POST /chat/stream`, given the authenticated user id and the
agent's streaming capability as an oracle from (message, resolved thread
id) to a model stream. The second component records whether the agent was
invoked (the `Generating` state entered). -/
def chatStreamHandler (req : ChatStreamRequest) (userId : String)
    (model : String → String → ModelStream) : StreamOutcome × Bool :=
  if messageInvalid req.message then
    (.jsonError 400 "Message is required", false)
  else
    let m := match req.message with
      | some (.jstr s) => s
      | _ => ""
    let tid := resolvedThreadId req.threadId userId
    let s := model m tid
    (.streamOk 200 "text/event-stream" (sseFrames s.traceId s.chunks), true)

/-- Record of a conversation thread as stored by the memory collaborator. -/
structure ThreadRec where
  id : String
  resourceId : String
  title : String
deriving DecidableEq, Repr

/-- Context-building step of the stream handler, with the thread store made
explicit: between validation and `agent.stream` the handler only reads the
Google account, fills the runtime context and computes `resolvedThreadId`;
it performs no operation on the thread store, which is returned unchanged
together with the resolved thread id. -/
def chatStreamContextStep (threads : List ThreadRec) (req : ChatStreamRequest)
    (userId : String) : List ThreadRec × String :=
  (threads, resolvedThreadId req.threadId userId)

/-- Modelled from the spec: the claimed context-builder behaviour that a
request without a thread id creates a new thread whose default title is a
prefix of the input message text. Missing from the handlers under `src`,
which never call `createThread`; stated here only to be compared with
`chatStreamContextStep`. -/
def specContextCreatesTitledThread (threadsBefore threadsAfter : List ThreadRec)
    (message : String) : Prop :=
  ∃ t : ThreadRec, t ∈ threadsAfter ∧ t ∉ threadsBefore ∧
    ∃ n : Nat, 0 < n ∧ t.title = (message.take n)

/-! Tool adapters. Google People / Gmail API responses are modelled as
parsed JSON with every optional field an `Option`; the `fetch` round trips
are parameters of the `execute` functions, so a theorem can quantify over
the network's behaviour. -/

/-- One entry of `person.names`. -/
structure GName where
  displayName : Option String
deriving DecidableEq, Repr

/-- One entry of `person.emailAddresses`. -/
structure GEmail where
  value : Option String
deriving DecidableEq, Repr

/-- One entry of `person.phoneNumbers`. -/
structure GPhone where
  value : Option String
deriving DecidableEq, Repr

/-- One connection of the People API response, fields possibly absent. -/
structure GPerson where
  names : Option (List GName)
  emailAddresses : Option (List GEmail)
  phoneNumbers : Option (List GPhone)
deriving DecidableEq, Repr

/-- Output element of the contacts tool (`email`/`phone` omitted when the
upstream chain `xs?.[0]?.value` is undefined). -/
structure Contact where
  name : String
  email : Option String
  phone : Option String
deriving DecidableEq, Repr

/-- Normalization of one person performed by the contacts tool:
`names?.[0]?.displayName || "Unknown"`, `emailAddresses?.[0]?.value`,
`phoneNumbers?.[0]?.value`. -/
def contactOfPerson (p : GPerson) : Contact :=
  { name := jsOrStr ((p.names.bind List.head?).bind GName.displayName) "Unknown"
    email := (p.emailAddresses.bind List.head?).bind GEmail.value
    phone := (p.phoneNumbers.bind List.head?).bind GPhone.value }

/-- Response of the People API connections call: a non-2xx failure with its
status and body text, or a parsed body whose `connections` field may be
absent. -/
inductive ContactsResponse where
  | failure : Nat → String → ContactsResponse
  | success : Option (List GPerson) → ContactsResponse
deriving DecidableEq, Repr

/-- Execute function of the `google-contacts` tool: check the runtime
context's access token (throwing before any fetch when it is falsy), then
call the People API once and map `data.connections || []`. Thrown errors
are the `Except.error` messages. -/
def googleContactsExecute (accessToken : Option String)
    (resp : ContactsResponse) : Except String (List Contact) :=
  if jsFalsyStr accessToken then
    .error "Google access token not available"
  else
    match resp with
    | .failure status errorText =>
      .error ("Failed to fetch contacts: " ++ toString status ++ " " ++ errorText)
    | .success conns =>
      .ok ((conns.getD []).map contactOfPerson)

/-- One metadata header of a Gmail message detail. -/
structure GHeader where
  name : String
  value : String
deriving DecidableEq, Repr

/-- Payload of a Gmail message detail, headers possibly absent. -/
structure GPayload where
  headers : Option (List GHeader)
deriving DecidableEq, Repr

/-- Parsed Gmail message detail. -/
structure GDetail where
  payload : Option GPayload
  snippet : Option String
deriving DecidableEq, Repr

/-- Output element of the Gmail tool (`from` is `fromAddr`: `from` is a
reserved word in Lean). -/
structure EmailOut where
  id : String
  subject : String
  fromAddr : String
  date : String
  snippet : String
deriving DecidableEq, Repr

/-- Outcome of one per-message detail fetch: a non-2xx response, or the
parsed detail. -/
inductive DetailResult where
  | failure : DetailResult
  | success : GDetail → DetailResult
deriving DecidableEq, Repr

/-- Lookup `headers.find((h) => h.name === n)?.value`. -/
def headerValue (hs : List GHeader) (n : String) : Option String :=
  (hs.find? (fun h => h.name == n)).map GHeader.value

/-- Placeholder entry returned when a detail sub-request fails. -/
def emailPlaceholder (id : String) : EmailOut :=
  { id := id, subject := "Error fetching email", fromAddr := "Unknown"
    date := "", snippet := "" }

/-- Mapping of one listed message id through its detail fetch: a failing
detail degrades to the placeholder, a successful one is normalized with
the `|| "No Subject"` / `|| "Unknown"` / `|| ""` defaults. -/
def emailOfDetail (id : String) (r : DetailResult) : EmailOut :=
  match r with
  | .failure => emailPlaceholder id
  | .success d =>
    let hs := (d.payload.bind GPayload.headers).getD []
    { id := id
      subject := jsOrStr (headerValue hs "Subject") "No Subject"
      fromAddr := jsOrStr (headerValue hs "From") "Unknown"
      date := jsOrStr (headerValue hs "Date") ""
      snippet := jsOrStr d.snippet "" }

/-- Response of the Gmail list call: a non-2xx failure, or a parsed body
whose `messages` field (a list of message ids) may be absent. -/
inductive GmailListResponse where
  | failure : Nat → String → GmailListResponse
  | success : Option (List String) → GmailListResponse
deriving DecidableEq, Repr

/-- Execute function of the `google-gmail` tool: check the access token
(before any fetch), list messages, then fetch details for
`messages.slice(0, maxResults)`, degrading each failed detail to a
placeholder. `detailOf` is the network's answer per message id. -/
def googleGmailExecute (accessToken : Option String) (maxResults : Option Nat)
    (listResp : GmailListResponse) (detailOf : String → DetailResult) :
    Except String (List EmailOut) :=
  if jsFalsyStr accessToken then
    .error "Google access token not available"
  else
    let mr := maxResults.getD 10
    match listResp with
    | .failure status errorText =>
      .error ("Failed to fetch emails: " ++ toString status ++ " " ++ errorText)
    | .success msgs =>
      .ok (((msgs.getD []).take mr).map (fun id => emailOfDetail id (detailOf id)))

/-! History route. Messages carry an optional creation timestamp (epoch
milliseconds); the route sorts by
`new Date(a.createdAt || 0).getTime() - new Date(b.createdAt || 0).getTime()`,
so an absent timestamp sorts as 0. -/

/-- One UI message returned by `memory.query`. -/
structure UiMessage where
  id : String
  role : String
  content : String
  createdAt : Option Nat
deriving DecidableEq, Repr

/-- Sort key of the history comparator: `new Date(createdAt || 0).getTime()`. -/
def msgKey (m : UiMessage) : Nat := m.createdAt.getD 0

/-- Comparison relation of the history sort (ascending by creation time). -/
def msgLe (a b : UiMessage) : Prop := msgKey a ≤ msgKey b

instance : DecidableRel msgLe := fun a b => Nat.decLe (msgKey a) (msgKey b)

instance : IsTotal UiMessage msgLe := ⟨fun a b => Nat.le_total (msgKey a) (msgKey b)⟩

instance : IsTrans UiMessage msgLe := ⟨fun _ _ _ => Nat.le_trans⟩

/-- The chronological sort performed by `GET /chat/history` on the queried
messages (`[...uiMessages].sort(comparator)`). -/
def sortMessages (l : List UiMessage) : List UiMessage :=
  List.insertionSort msgLe l

/-- Handler of `GET /chat/history`: resolve the thread id
(`c.req.query("threadId") || "thread-" + session.user.id`), then return the
queried messages in chronological order. The memory query's result for the
resolved thread is a parameter. -/
def chatHistoryHandler (threadIdQuery : Option String) (userId : String)
    (queried : List UiMessage) : String × List UiMessage :=
  (jsOrStr threadIdQuery ("thread-" ++ userId), sortMessages queried)

/-! Trace routes. Rows of the `mastra_ai_spans` table; `metadata` is a
JSON object modelled as an association list so that the SQL filter
`metadata->>'threadId' = $1` can be expressed. -/

/-- One row of `mastra_ai_spans`. -/
structure SpanRow where
  spanId : String
  traceId : String
  parentSpanId : Option String
  name : String
  spanType : String
  startedAt : Nat
  endedAt : Option Nat
  input : String
  output : String
  metadata : List (String × String)
  attributes : String
  error : Option String
deriving DecidableEq, Repr

/-- SQL `metadata->>'threadId'` on a span row. -/
def metaThreadId (s : SpanRow) : Option String :=
  (s.metadata.find? (fun kv => kv.fst == "threadId")).map Prod.snd

/-- Ascending start-time relation used by `ORDER BY "startedAt" ASC`. -/
def spanLe (a b : SpanRow) : Prop := a.startedAt ≤ b.startedAt

instance : DecidableRel spanLe := fun a b => Nat.decLe a.startedAt b.startedAt

instance : IsTotal SpanRow spanLe := ⟨fun a b => Nat.le_total a.startedAt b.startedAt⟩

instance : IsTrans SpanRow spanLe := ⟨fun _ _ _ => Nat.le_trans⟩

/-- Result set of `SELECT ... WHERE "traceId" = $1 ORDER BY "startedAt" ASC`
over the span table. -/
def spansOfTrace (db : List SpanRow) (traceId : String) : List SpanRow :=
  List.insertionSort spanLe (db.filter (fun s => s.traceId == traceId))

/-- One span as serialized by the trace-detail route (`isRootSpan` is the
JS truthiness test `!s.parentSpanId`). -/
structure SpanOut where
  id : String
  traceId : String
  name : String
  spanType : String
  startTime : Nat
  endTime : Option Nat
  input : String
  output : String
  metadata : List (String × String)
  attributes : String
  errorInfo : Option String
  parentSpanId : Option String
  isRootSpan : Bool
deriving DecidableEq, Repr

/-- Serialization of one row performed by `GET /traces/:traceId`. -/
def spanOut (s : SpanRow) : SpanOut :=
  { id := s.spanId, traceId := s.traceId, name := s.name
    spanType := s.spanType, startTime := s.startedAt, endTime := s.endedAt
    input := s.input, output := s.output, metadata := s.metadata
    attributes := s.attributes, errorInfo := s.error
    parentSpanId := s.parentSpanId
    isRootSpan := jsFalsyStr s.parentSpanId }

/-- Body of a successful `GET /traces/:traceId` response. -/
structure TraceDetail where
  traceId : String
  spans : List SpanOut
  startTime : Nat
  endTime : Option Nat
  metadata : List (String × String)
deriving DecidableEq, Repr

/-- Outcome of `GET /traces/:traceId`: 404 with an error body, or the trace. -/
inductive TraceDetailResult where
  | notFound : String → TraceDetailResult
  | ok : TraceDetail → TraceDetailResult
deriving DecidableEq, Repr

/-- Handler of `GET /traces/:traceId`: fetch the trace's spans ordered by
start time ascending; 404 when none; root span is
`spans.find((s) => !s.parentSpanId) || spans[0]`; the response carries the
root's start time and metadata and the last span's end time. -/
def getTraceHandler (db : List SpanRow) (traceId : String) : TraceDetailResult :=
  match spansOfTrace db traceId with
  | [] => .notFound "Trace not found"
  | s0 :: rest =>
    let spans := s0 :: rest
    let rootSpan := (spans.find? (fun s => jsFalsyStr s.parentSpanId)).getD s0
    .ok { traceId := traceId
          spans := spans.map spanOut
          startTime := rootSpan.startedAt
          endTime := spans.getLast?.bind SpanRow.endedAt
          metadata := rootSpan.metadata }

/-- One trace summary returned by `GET /traces/conversation/:threadId`. -/
structure TraceSummary where
  traceId : String
  name : String
  startTime : Nat
  endTime : Option Nat
  input : String
  output : String
  metadata : List (String × String)
deriving DecidableEq, Repr

/-- Body of a `GET /traces/conversation/:threadId` response. -/
structure ConversationTraces where
  threadId : String
  title : String
  traces : List TraceSummary
deriving DecidableEq, Repr

/-- Lookup `memory.getThreadById({threadId})` in the thread store. -/
def getThreadById (threads : List ThreadRec) (threadId : String) : Option ThreadRec :=
  threads.find? (fun t => t.id == threadId)

/-- Handler of `GET /traces/conversation/:threadId`, given the session's
user id (set by `requireAuth`), the span table and the thread store. The
route selects the root spans whose metadata references the thread
(`metadata->>'threadId' = $1 AND "parentSpanId" IS NULL`) ordered by start
time ascending, and the thread's title (`thread?.title || "Untitled Chat"`);
the session identity is never consulted. -/
def conversationTracesHandler (sessionUserId : String) (db : List SpanRow)
    (threads : List ThreadRec) (threadId : String) : ConversationTraces :=
  let rootSpans := List.insertionSort spanLe
    (db.filter (fun s => metaThreadId s == some threadId && s.parentSpanId == none))
  let thread := getThreadById threads threadId
  { threadId := threadId
    title := jsOrStr (thread.map ThreadRec.title) "Untitled Chat"
    traces := rootSpans.map (fun s =>
      { traceId := s.traceId, name := s.name, startTime := s.startedAt
        endTime := s.endedAt, input := s.input, output := s.output
        metadata := s.metadata }) }

/-! Thread deletion route. The memory collaborator's state is the pair of
its thread and message stores; `memory.query({threadId})` returns the
thread's messages and `memory.deleteMessages(ids)` removes messages by id. -/

/-- One stored message of the memory collaborator. -/
structure StoredMessage where
  id : String
  threadId : String
deriving DecidableEq, Repr

/-- State of the memory collaborator. -/
structure MemoryState where
  threads : List ThreadRec
  messages : List StoredMessage
deriving DecidableEq, Repr

/-- Outcome of `DELETE /chat/threads/:threadId`. -/
inductive DeleteOutcome where
  | notFound : String → DeleteOutcome
  | success : DeleteOutcome
deriving DecidableEq, Repr

/-- Handler of `DELETE /chat/threads/:threadId`: 404 unless the thread
exists and belongs to the session user
(`!thread || thread.resourceId !== session.user.id`); otherwise delete the
thread's messages by id and answer `{success: true}` — no `deleteThread`
call exists, so the thread store is left unchanged. -/
def deleteThreadHandler (st : MemoryState) (userId threadId : String) :
    DeleteOutcome × MemoryState :=
  match getThreadById st.threads threadId with
  | none => (.notFound "Thread not found", st)
  | some thread =>
    if thread.resourceId ≠ userId then
      (.notFound "Thread not found", st)
    else
      let ids := (st.messages.filter (fun m => m.threadId == threadId)).map StoredMessage.id
      (.success,
       { st with messages := st.messages.filter (fun m => !(ids.contains m.id)) })

/-! Shape predicates used to state the structured-output invariant of the
tool adapters, and upstream well-formedness. -/

/-- An optional output field is well shaped when, if present, it carries a
non-empty string. -/
def optPresentNonempty (o : Option String) : Bool :=
  match o with
  | some s => !(s == "")
  | none => true

/-- Fixed output shape of one contact: required `name` a non-empty string,
optional `email`/`phone` present-as-non-empty-string or absent. -/
def contactShapeOk (c : Contact) : Bool :=
  !(c.name == "") && optPresentNonempty c.email && optPresentNonempty c.phone

/-- Well-formedness of one upstream person entry: the optional values the
adapter reads are non-empty strings when present (fields may be absent). -/
def wfPerson (p : GPerson) : Bool :=
  optPresentNonempty ((p.emailAddresses.bind List.head?).bind GEmail.value) &&
  optPresentNonempty ((p.phoneNumbers.bind List.head?).bind GPhone.value)

/-! Theorems. Claim identifiers `C1`–`C10` refer to the design
specification's testable properties and interface contracts. -/

/-- Helper: JavaScript `x || d` yields the default when `x` is falsy. -/
theorem jsOrStr_of_falsy {x : Option String} {d : String}
    (h : jsFalsyStr x = true) : jsOrStr x d = d := by
  cases x with
  | none => rfl
  | some s =>
    simp only [jsFalsyStr, beq_iff_eq] at h
    simp [jsOrStr, h]

/-- Helper: JavaScript `x || d` keeps a truthy `x`. -/
theorem jsOrStr_of_truthy {s : String} {d : String}
    (h : s ≠ "") : jsOrStr (some s) d = s := by
  simp [jsOrStr, h]

/-- C5: a `POST /chat/stream` request whose body lacks a message, or whose
message is empty or not a string, is answered 400 with
`{error: "Message is required"}`, and the agent is never invoked: the
outcome is the same for every model oracle and the invocation flag is
false (the `Generating` state is never entered). -/
theorem chatStream_invalid_message_rejected (req : ChatStreamRequest)
    (userId : String) (model : String → String → ModelStream)
    (h : messageInvalid req.message = true) :
    chatStreamHandler req userId model = (.jsonError 400 "Message is required", false) := by
  simp [chatStreamHandler, h]

/-- Witness for C5 at the concrete invalid bodies `{}`, `{message: ""}` and
`{message: 42}`. -/
theorem chatStream_invalid_message_rejected_witness :
    chatStreamHandler ⟨none, none⟩ "user-1" (fun _ _ => ⟨none, []⟩) =
      (.jsonError 400 "Message is required", false) ∧
    chatStreamHandler ⟨some (.jstr ""), none⟩ "user-1" (fun _ _ => ⟨none, []⟩) =
      (.jsonError 400 "Message is required", false) ∧
    chatStreamHandler ⟨some (.jnum 42), some "t-9"⟩ "user-1" (fun _ _ => ⟨none, []⟩) =
      (.jsonError 400 "Message is required", false) :=
  ⟨chatStream_invalid_message_rejected _ _ _ (by decide),
   chatStream_invalid_message_rejected _ _ _ (by decide),
   chatStream_invalid_message_rejected _ _ _ (by decide)⟩

/-- C10: `GET /traces/conversation/:threadId` performs no ownership check:
for any thread id and any two authenticated sessions the handler returns
the same title and the same list of root-span trace summaries, so any
authenticated user can read any other user's conversation traces. -/
theorem conversationTraces_no_ownership_check (u1 u2 : String)
    (db : List SpanRow) (threads : List ThreadRec) (threadId : String) :
    conversationTracesHandler u1 db threads threadId =
      conversationTracesHandler u2 db threads threadId := rfl

/-- C6: `GET /chat/history` returns the queried messages sorted ascending
by `createdAt` (whatever order storage returned them in: the result is a
permutation of the query result, sorted for the comparator's key), and an
omitted `threadId` query defaults to the caller's per-user default thread
`thread-<userId>`. -/
theorem chatHistory_sorted_and_default_thread (threadIdQuery : Option String)
    (userId : String) (queried : List UiMessage) :
    List.Sorted msgLe (chatHistoryHandler threadIdQuery userId queried).2 ∧
    (chatHistoryHandler threadIdQuery userId queried).2.Perm queried ∧
    (chatHistoryHandler none userId queried).1 = "thread-" ++ userId := by
  exact ⟨List.sorted_insertionSort msgLe queried,
         List.perm_insertionSort msgLe queried, rfl⟩

/-- C3 counterexample: invoking either tool with no resolved credential
fails with the message "Google access token not available", not with the
claimed message "access token not available". -/
theorem credentialMissing_message_counterexample :
    googleContactsExecute none (.success none) =
      .error "Google access token not available" ∧
    googleGmailExecute none none (.success none) (fun _ => .failure) =
      .error "Google access token not available" ∧
    googleContactsExecute none (.success none) ≠
      .error "access token not available" ∧
    googleGmailExecute none none (.success none) (fun _ => .failure) ≠
      .error "access token not available" := by
  refine ⟨rfl, rfl, ?_, ?_⟩ <;> intro h <;> exact absurd (Except.error.inj h) (by decide)

/-- C3 as amended: invoking either tool adapter when no credential was
resolved (access token absent or empty) always fails with the message
"Google access token not available", and never attempts a network call:
the outcome is independent of every network response parameter. -/
theorem tools_credential_gating (tok : Option String) (h : jsFalsyStr tok = true)
    (resp1 resp2 : ContactsResponse) (mr : Option Nat)
    (l1 l2 : GmailListResponse) (d1 d2 : String → DetailResult) :
    googleContactsExecute tok resp1 = .error "Google access token not available" ∧
    googleContactsExecute tok resp1 = googleContactsExecute tok resp2 ∧
    googleGmailExecute tok mr l1 d1 = .error "Google access token not available" ∧
    googleGmailExecute tok mr l1 d1 = googleGmailExecute tok mr l2 d2 := by
  simp [googleContactsExecute, googleGmailExecute, h]

/-- Witness for C3 at an absent token and at an empty token, with two
network behaviours that would differ if consulted. -/
theorem tools_credential_gating_witness :
    (googleContactsExecute none (.failure 500 "boom") =
       .error "Google access token not available" ∧
     googleContactsExecute none (.failure 500 "boom") =
       googleContactsExecute none (.success (some [])) ∧
     googleGmailExecute none (some 5) (.failure 500 "boom") (fun _ => .failure) =
       .error "Google access token not available" ∧
     googleGmailExecute none (some 5) (.failure 500 "boom") (fun _ => .failure) =
       googleGmailExecute none (some 5) (.success (some ["m1"]))
         (fun _ => .success ⟨none, none⟩)) ∧
    googleContactsExecute (some "") (.success (some [])) =
      .error "Google access token not available" :=
  ⟨tools_credential_gating none rfl (.failure 500 "boom") (.success (some []))
     (some 5) (.failure 500 "boom") (.success (some ["m1"]))
     (fun _ => .failure) (fun _ => .success ⟨none, none⟩),
   (tools_credential_gating (some "") rfl (.success (some [])) (.success (some []))
     none (.success none) (.success none) (fun _ => .failure) (fun _ => .failure)).1⟩

/-- C1: an authenticated `POST /chat/stream` request with a valid non-empty
string message is answered 200 with `Content-Type: text/event-stream`, and
the body is exactly: one `event: traceId` frame carrying the stream's trace
id first, then one `data:` frame per model text chunk holding that chunk
JSON-encoded, in the model's order, then the single terminal `data: [DONE]`
frame; every frame is one complete unit terminated by a blank line (the
handler enqueues each frame whole, never splitting a chunk's JSON). Stated
for a stream whose trace id is present and non-empty, matching the source's
`if (traceId)` guard. -/
theorem chatStream_sse_frame_order (req : ChatStreamRequest) (userId m t : String)
    (model : String → String → ModelStream)
    (hm : req.message = some (.jstr m)) (hne : m ≠ "")
    (ht : (model m (resolvedThreadId req.threadId userId)).traceId = some t)
    (htne : t ≠ "") :
    chatStreamHandler req userId model =
      (.streamOk 200 "text/event-stream"
        (traceIdFrame t ::
          ((model m (resolvedThreadId req.threadId userId)).chunks.map dataFrame
            ++ [doneFrame])), true) ∧
    ∀ f ∈ traceIdFrame t ::
        ((model m (resolvedThreadId req.threadId userId)).chunks.map dataFrame
          ++ [doneFrame]),
      ∃ body : String, f = body ++ "\n\n" := by
  constructor
  · simp [chatStreamHandler, hm, messageInvalid, JValue.falsy, JValue.isStr, hne,
      sseFrames, jsFalsyStr, ht, htne]
  · intro f hf
    rcases List.mem_cons.mp hf with hf | hf
    · exact ⟨"event: traceId\ndata: " ++ jsonEncodeString t, hf⟩
    · rcases List.mem_append.mp hf with hf | hf
      · rcases List.mem_map.mp hf with ⟨c, _, hc⟩
        exact ⟨"data: " ++ jsonEncodeString c, hc.symm⟩
      · rcases List.mem_singleton.mp hf with rfl
        exact ⟨"data: [DONE]", by decide⟩

/-- Witness for C1 at a concrete request and a model stream producing two
chunks. -/
theorem chatStream_sse_frame_order_witness :
    chatStreamHandler ⟨some (.jstr "Hello"), none⟩ "user-1"
        (fun _ _ => ⟨some "trace-1", ["Hi", " there"]⟩) =
      (.streamOk 200 "text/event-stream"
        (traceIdFrame "trace-1" ::
          (["Hi", " there"].map dataFrame ++ [doneFrame])), true) :=
  (chatStream_sse_frame_order ⟨some (.jstr "Hello"), none⟩ "user-1" "Hello" "trace-1"
    (fun _ _ => ⟨some "trace-1", ["Hi", " there"]⟩) rfl (by decide) rfl (by decide)).1

/-- C2 counterexample: for the concrete request `{message: "Hello"}` with
no thread id, the stream handler's context-building step creates no thread
at all — starting from an empty thread store it leaves the store empty, so
no newly created thread with a title derived from a prefix of "Hello"
exists; the step merely resolves the thread id to the fixed per-user value
`thread-user-1`. -/
theorem chatStream_no_thread_created_counterexample :
    (chatStreamContextStep [] ⟨some (.jstr "Hello"), none⟩ "user-1").1 = [] ∧
    (chatStreamContextStep [] ⟨some (.jstr "Hello"), none⟩ "user-1").2 = "thread-user-1" ∧
    ¬ specContextCreatesTitledThread []
        (chatStreamContextStep [] ⟨some (.jstr "Hello"), none⟩ "user-1").1 "Hello" := by
  refine ⟨rfl, by decide, ?_⟩
  rintro ⟨th, hmem, -, -⟩
  simp [chatStreamContextStep] at hmem

/-- C2 as amended: a valid `POST /chat/stream` request that supplies no
thread id (absent or empty) has its thread resolved to the fixed per-user
default id `thread-<userId>` — independent of the message text — and the
context-building step creates no thread record (the thread store is
unchanged; thread materialization and titling are left to the memory
collaborator and to the web client, which creates a titled thread itself
before streaming). -/
theorem chatStream_default_thread_resolution (threads : List ThreadRec)
    (req : ChatStreamRequest) (userId : String)
    (h : jsFalsyStr req.threadId = true) :
    chatStreamContextStep threads req userId = (threads, "thread-" ++ userId) := by
  simp [chatStreamContextStep, resolvedThreadId, jsOrStr_of_falsy h]

/-- Witness for C2 at a concrete request with an absent thread id. -/
theorem chatStream_default_thread_resolution_witness :
    chatStreamContextStep [⟨"t-1", "user-2", "Old chat"⟩]
        ⟨some (.jstr "Hello"), none⟩ "user-1" =
      ([⟨"t-1", "user-2", "Old chat"⟩], "thread-" ++ "user-1") :=
  chatStream_default_thread_resolution [⟨"t-1", "user-2", "Old chat"⟩]
    ⟨some (.jstr "Hello"), none⟩ "user-1" rfl

/-- Helper: JavaScript `x || d` with a non-empty default never yields the
empty string. -/
theorem jsOrStr_ne_empty {x : Option String} {d : String} (hd : d ≠ "") :
    jsOrStr x d ≠ "" := by
  cases x with
  | none => simpa [jsOrStr]
  | some s =>
    by_cases hs : s = "" <;> simp [jsOrStr, hs, hd]

/-- C4: for every well-formed upstream response — the list call honours the
requested `maxResults` and present optional string values are non-empty —
each adapter's output has one element per upstream list entry (also for
empty and absent lists) and every element has the fixed shape: `name` a
non-empty string, `email`/`phone` carried over verbatim (so present as a
non-empty string exactly when upstream had a first value, omitted
otherwise), a missing display name defaulting to the sentinel "Unknown",
and Gmail subject/sender never empty, defaulting to "No Subject"/"Unknown"
when the corresponding header is missing. -/
theorem tools_structured_output (tok : Option String) (htok : jsFalsyStr tok = false)
    (conns : List GPerson) (hwf : conns.all wfPerson = true)
    (msgs : List String) (mr : Nat) (hmr : msgs.length ≤ mr)
    (detailOf : String → DetailResult) :
    (googleContactsExecute tok (.success (some conns)) =
       .ok (conns.map contactOfPerson) ∧
     (conns.map contactOfPerson).length = conns.length ∧
     (conns.map contactOfPerson).all contactShapeOk = true ∧
     (∀ p ∈ conns,
        (contactOfPerson p).email = (p.emailAddresses.bind List.head?).bind GEmail.value ∧
        (contactOfPerson p).phone = (p.phoneNumbers.bind List.head?).bind GPhone.value ∧
        ((p.names.bind List.head?).bind GName.displayName = none →
          (contactOfPerson p).name = "Unknown")) ∧
     googleContactsExecute tok (.success none) = .ok []) ∧
    (googleGmailExecute tok (some mr) (.success (some msgs)) detailOf =
       .ok (msgs.map (fun id => emailOfDetail id (detailOf id))) ∧
     (msgs.map (fun id => emailOfDetail id (detailOf id))).length = msgs.length ∧
     (∀ id ∈ msgs, (emailOfDetail id (detailOf id)).subject ≠ "" ∧
        (emailOfDetail id (detailOf id)).fromAddr ≠ "") ∧
     (∀ id d, detailOf id = .success d →
        (headerValue ((d.payload.bind GPayload.headers).getD []) "Subject" = none →
          (emailOfDetail id (detailOf id)).subject = "No Subject") ∧
        (headerValue ((d.payload.bind GPayload.headers).getD []) "From" = none →
          (emailOfDetail id (detailOf id)).fromAddr = "Unknown")) ∧
     googleGmailExecute tok (some mr) (.success none) detailOf = .ok []) := by
  refine ⟨⟨?_, List.length_map _ _, ?_, ?_, ?_⟩, ?_, ?_, ?_, ?_, ?_⟩
  · simp [googleContactsExecute, htok]
  · rw [List.all_eq_true]
    intro c hc
    rcases List.mem_map.mp hc with ⟨p, hp, rfl⟩
    have hwfp : wfPerson p = true := List.all_eq_true.mp hwf p hp
    simp only [wfPerson, Bool.and_eq_true] at hwfp
    simp only [contactShapeOk, Bool.and_eq_true]
    refine ⟨⟨?_, hwfp.1⟩, hwfp.2⟩
    simpa using jsOrStr_ne_empty (x := (p.names.bind List.head?).bind GName.displayName)
      (d := "Unknown") (by decide)
  · intro p _
    exact ⟨rfl, rfl, fun h => by simp [contactOfPerson, h, jsOrStr]⟩
  · simp [googleContactsExecute, htok]
  · simp [googleGmailExecute, htok, List.take_of_length_le hmr]
  · simp
  · intro id _
    constructor
    · cases h : detailOf id with
      | failure => simp [emailOfDetail, emailPlaceholder]
      | success d =>
        simp only [emailOfDetail]
        exact jsOrStr_ne_empty (by decide)
    · cases h : detailOf id with
      | failure => simp [emailOfDetail, emailPlaceholder]
      | success d =>
        simp only [emailOfDetail]
        exact jsOrStr_ne_empty (by decide)
  · intro id d hd
    constructor
    · intro hh
      simp [emailOfDetail, hd, hh, jsOrStr]
    · intro hh
      simp [emailOfDetail, hd, hh, jsOrStr]
  · simp [googleGmailExecute, htok]

/-- Witness for C4 at a concrete token, a two-person upstream contact list
(one person with every field, one with none) and a two-message Gmail list. -/
theorem tools_structured_output_witness :
    googleContactsExecute (some "tok")
        (.success (some [⟨some [⟨some "John Doe"⟩], some [⟨some "john@x.io"⟩],
                          some [⟨some "+123"⟩]⟩, ⟨none, none, none⟩])) =
      .ok [⟨"John Doe", some "john@x.io", some "+123"⟩, ⟨"Unknown", none, none⟩] ∧
    googleGmailExecute (some "tok") (some 2) (.success (some ["m1", "m2"]))
        (fun _ => .success ⟨none, none⟩) =
      .ok [⟨"m1", "No Subject", "Unknown", "", ""⟩,
           ⟨"m2", "No Subject", "Unknown", "", ""⟩] := by
  have h := tools_structured_output (some "tok") rfl
    [⟨some [⟨some "John Doe"⟩], some [⟨some "john@x.io"⟩], some [⟨some "+123"⟩]⟩,
     ⟨none, none, none⟩] (by decide) ["m1", "m2"] 2 (by decide)
    (fun _ => .success ⟨none, none⟩)
  exact ⟨h.1.1, h.2.1⟩

/-- C7: when the Gmail list call succeeds but some detail sub-requests fail,
the batch is not aborted: the output still has one entry per listed message
(for a list honouring `maxResults`), every entry preserves its message id,
and each failed item degrades to the placeholder sub-result instead of
failing the whole call. -/
theorem gmail_per_item_degradation (tok : Option String)
    (htok : jsFalsyStr tok = false) (msgs : List String) (mr : Nat)
    (hmr : msgs.length ≤ mr) (detailOf : String → DetailResult) :
    googleGmailExecute tok (some mr) (.success (some msgs)) detailOf =
      .ok (msgs.map (fun id => emailOfDetail id (detailOf id))) ∧
    (msgs.map (fun id => emailOfDetail id (detailOf id))).length = msgs.length ∧
    (∀ id ∈ msgs, (emailOfDetail id (detailOf id)).id = id) ∧
    (∀ id ∈ msgs, detailOf id = .failure →
       emailOfDetail id (detailOf id) = emailPlaceholder id) := by
  refine ⟨?_, List.length_map _ _, ?_, ?_⟩
  · simp [googleGmailExecute, htok, List.take_of_length_le hmr]
  · intro id _
    cases h : detailOf id with
    | failure => simp [emailOfDetail, emailPlaceholder]
    | success d => simp [emailOfDetail]
  · intro id _ hfail
    simp [emailOfDetail, hfail]

/-- Witness for C7: two listed messages, the first detail fetch failing and
the second succeeding; the failed one degrades to the placeholder. -/
theorem gmail_per_item_degradation_witness :
    googleGmailExecute (some "tok") (some 2) (.success (some ["bad", "good"]))
        (fun id => if id = "bad" then .failure
                   else .success ⟨some ⟨some [⟨"Subject", "Hi"⟩]⟩, some "snip"⟩) =
      .ok [emailPlaceholder "bad", ⟨"good", "Hi", "Unknown", "", "snip"⟩] ∧
    emailOfDetail "bad"
        ((fun id : String => if id = "bad" then DetailResult.failure
                   else .success ⟨some ⟨some [⟨"Subject", "Hi"⟩]⟩, some "snip"⟩) "bad") =
      emailPlaceholder "bad" := by
  have h := gmail_per_item_degradation (some "tok") rfl ["bad", "good"] 2 (by decide)
    (fun id => if id = "bad" then .failure
               else .success ⟨some ⟨some [⟨"Subject", "Hi"⟩]⟩, some "snip"⟩)
  refine ⟨?_, h.2.2.2 "bad" (by decide) (by decide)⟩
  rw [h.1]
  rfl

/-- C9: `DELETE /chat/threads/:threadId` answers 404 (state untouched) when
the thread does not exist or is not owned by the caller; otherwise it
answers `{success: true}`, removes every message associated with the
thread, and retains the thread record itself (the thread store is
unchanged and still contains the thread). -/
theorem delete_thread_contract (st : MemoryState) (userId threadId : String) :
    ((getThreadById st.threads threadId = none ∨
       (∃ th, getThreadById st.threads threadId = some th ∧ th.resourceId ≠ userId)) →
       deleteThreadHandler st userId threadId = (.notFound "Thread not found", st)) ∧
    (∀ th, getThreadById st.threads threadId = some th → th.resourceId = userId →
       (deleteThreadHandler st userId threadId).1 = .success ∧
       (deleteThreadHandler st userId threadId).2.threads = st.threads ∧
       th ∈ (deleteThreadHandler st userId threadId).2.threads ∧
       ∀ m ∈ (deleteThreadHandler st userId threadId).2.messages,
         m.threadId ≠ threadId) := by
  constructor
  · rintro (h | ⟨th, hth, hres⟩)
    · simp [deleteThreadHandler, h]
    · simp [deleteThreadHandler, hth, hres]
  · intro th hth hres
    have hmem_th : th ∈ st.threads := List.mem_of_find?_eq_some hth
    have hred : deleteThreadHandler st userId threadId =
        (.success, { st with messages := st.messages.filter (fun m =>
          !(((st.messages.filter (fun x => x.threadId == threadId)).map
              StoredMessage.id).contains m.id)) }) := by
      simp [deleteThreadHandler, hth, hres]
    rw [hred]
    refine ⟨rfl, rfl, hmem_th, ?_⟩
    intro m hm htid
    rcases List.mem_filter.mp hm with ⟨hmem, hpass⟩
    rw [Bool.not_eq_true'] at hpass
    have hin : ((st.messages.filter (fun x => x.threadId == threadId)).map
        StoredMessage.id).contains m.id = true :=
      List.contains_iff_exists_mem_beq.mpr
        ⟨m.id, List.mem_map.mpr ⟨m, List.mem_filter.mpr ⟨hmem, by simp [htid]⟩, rfl⟩,
         by simp⟩
    rw [hpass] at hin
    exact Bool.false_ne_true hin

/-- Witness for C9: a one-thread store owned by `u1` with one message in
the thread and one in another thread; deletion by the owner succeeds and
keeps the thread record, deletion by another caller is a 404. -/
theorem delete_thread_contract_witness :
    (deleteThreadHandler ⟨[⟨"t-1", "u1", "Chat"⟩], [⟨"m-1", "t-1"⟩, ⟨"m-2", "t-2"⟩]⟩
        "u1" "t-1").1 = .success ∧
    (deleteThreadHandler ⟨[⟨"t-1", "u1", "Chat"⟩], [⟨"m-1", "t-1"⟩, ⟨"m-2", "t-2"⟩]⟩
        "u1" "t-1").2.threads = [⟨"t-1", "u1", "Chat"⟩] ∧
    deleteThreadHandler ⟨[⟨"t-1", "u1", "Chat"⟩], [⟨"m-1", "t-1"⟩, ⟨"m-2", "t-2"⟩]⟩
        "u2" "t-1" =
      (.notFound "Thread not found",
       ⟨[⟨"t-1", "u1", "Chat"⟩], [⟨"m-1", "t-1"⟩, ⟨"m-2", "t-2"⟩]⟩) := by
  have h := delete_thread_contract
    ⟨[⟨"t-1", "u1", "Chat"⟩], [⟨"m-1", "t-1"⟩, ⟨"m-2", "t-2"⟩]⟩ "u1" "t-1"
  have h2 := delete_thread_contract
    ⟨[⟨"t-1", "u1", "Chat"⟩], [⟨"m-1", "t-1"⟩, ⟨"m-2", "t-2"⟩]⟩ "u2" "t-1"
  exact ⟨(h.2 ⟨"t-1", "u1", "Chat"⟩ rfl rfl).1, (h.2 ⟨"t-1", "u1", "Chat"⟩ rfl rfl).2.1,
         h2.1 (Or.inr ⟨⟨"t-1", "u1", "Chat"⟩, rfl, by decide⟩)⟩

/-- Helper: reduction of the trace-detail handler on a non-empty result
set. -/
theorem getTraceHandler_cons {db : List SpanRow} {tid : String} {s0 : SpanRow}
    {rest : List SpanRow} (hs : spansOfTrace db tid = s0 :: rest) :
    getTraceHandler db tid =
      .ok { traceId := tid
            spans := (s0 :: rest).map spanOut
            startTime :=
              (((s0 :: rest).find? (fun s => jsFalsyStr s.parentSpanId)).getD s0).startedAt
            endTime := (s0 :: rest).getLast?.bind SpanRow.endedAt
            metadata :=
              (((s0 :: rest).find? (fun s => jsFalsyStr s.parentSpanId)).getD s0).metadata } := by
  unfold getTraceHandler
  rw [hs]

/-- C8: `GET /traces/:traceId` answers 404 when no span matches the trace
id; otherwise it returns exactly the trace's spans (a permutation of the
matching rows) ordered by start time ascending, the root span is the span
with a null parent — falling back to the first span when none qualifies —
and the response carries the root's start time and metadata together with
the last span's end time. -/
theorem trace_detail_contract (db : List SpanRow) (tid : String) :
    (db.filter (fun s => s.traceId == tid) = [] →
       getTraceHandler db tid = .notFound "Trace not found") ∧
    (db.filter (fun s => s.traceId == tid) ≠ [] →
       ∃ t, getTraceHandler db tid = .ok t ∧
         List.Sorted (fun a b => a.startTime ≤ b.startTime) t.spans ∧
         t.spans.Perm ((db.filter (fun s => s.traceId == tid)).map spanOut) ∧
         t.endTime = (spansOfTrace db tid).getLast?.bind SpanRow.endedAt ∧
         t.traceId = tid ∧
         ∃ r ∈ spansOfTrace db tid,
           t.startTime = r.startedAt ∧ t.metadata = r.metadata ∧
           (jsFalsyStr r.parentSpanId = true ∨
            ((∀ s ∈ spansOfTrace db tid, jsFalsyStr s.parentSpanId = false) ∧
             (spansOfTrace db tid).head? = some r))) := by
  have hperm : (spansOfTrace db tid).Perm (db.filter (fun s => s.traceId == tid)) :=
    List.perm_insertionSort spanLe _
  have hsorted : List.Sorted spanLe (spansOfTrace db tid) :=
    List.sorted_insertionSort spanLe _
  constructor
  · intro h
    simp [getTraceHandler, spansOfTrace, h]
  · intro h
    cases hs : spansOfTrace db tid with
    | nil =>
      rw [hs] at hperm
      exact absurd hperm.symm.eq_nil h
    | cons s0 rest =>
      rw [hs] at hperm hsorted
      refine ⟨_, getTraceHandler_cons hs, ?_, ?_, rfl, rfl, ?_⟩
      · exact List.pairwise_map.mpr hsorted
      · exact hperm.map spanOut
      · cases hf : (s0 :: rest).find? (fun s => jsFalsyStr s.parentSpanId) with
        | some r =>
          exact ⟨r, List.mem_of_find?_eq_some hf, rfl, rfl,
                 Or.inl (by simpa using List.find?_some hf)⟩
        | none =>
          refine ⟨s0, List.mem_cons_self s0 rest, rfl, rfl, Or.inr ⟨?_, rfl⟩⟩
          intro s hsmem
          simpa using List.find?_eq_none.mp hf s hsmem

/-- Witness for C8: a two-span table; a trace id matching nothing is a 404,
a matching one is not. -/
theorem trace_detail_contract_witness :
    getTraceHandler
        [⟨"s-1", "tr-1", none, "agent run", "agent_run", 5, some 9, "i", "o",
          [("threadId", "t-1")], "a", none⟩,
         ⟨"s-2", "tr-1", some "s-1", "model call", "model_generation", 6, some 8,
          "i2", "o2", [], "a2", none⟩]
        "missing" = .notFound "Trace not found" ∧
    getTraceHandler
        [⟨"s-1", "tr-1", none, "agent run", "agent_run", 5, some 9, "i", "o",
          [("threadId", "t-1")], "a", none⟩,
         ⟨"s-2", "tr-1", some "s-1", "model call", "model_generation", 6, some 8,
          "i2", "o2", [], "a2", none⟩]
        "tr-1" ≠ .notFound "Trace not found" := by
  have h := trace_detail_contract
    [⟨"s-1", "tr-1", none, "agent run", "agent_run", 5, some 9, "i", "o",
      [("threadId", "t-1")], "a", none⟩,
     ⟨"s-2", "tr-1", some "s-1", "model call", "model_generation", 6, some 8,
      "i2", "o2", [], "a2", none⟩] "missing"
  have h2 := trace_detail_contract
    [⟨"s-1", "tr-1", none, "agent run", "agent_run", 5, some 9, "i", "o",
      [("threadId", "t-1")], "a", none⟩,
     ⟨"s-2", "tr-1", some "s-1", "model call", "model_generation", 6, some 8,
      "i2", "o2", [], "a2", none⟩] "tr-1"
  refine ⟨h.1 (by decide), ?_⟩
  obtain ⟨t, ht, -⟩ := h2.2 (by decide)
  intro hc
  rw [ht] at hc
  exact TraceDetailResult.noConfusion hc

end Chatbot
